import Mathlib

/-!
Verification of the NodeWarden server (a Bitwarden-compatible vault server on
Cloudflare Workers) against its natural-language specification.  The TypeScript
sources are shallowly embedded: the KV backend becomes explicit state records,
every storage / rate-limit operation becomes a state-passing Lean function, and
HTTP handlers become functions from state and (parsed) request data to a
response value and the successor state.  Timestamps produced by `new Date()`
and fresh UUIDs are passed in as explicit parameters.
-/

namespace NodeWarden

/-- Point update of a string-keyed map (one `kv.put` / `kv.delete`). -/
def upd {α : Type} (f : String → α) (k : String) (v : α) : String → α :=
  fun x => if x = k then v else f x

/-- JS truthiness of an optional string (`undefined`, `null` and `""` are falsy). -/
def strTruthy : Option String → Bool
  | some s => s != ""
  | none => false

/-- JS truthiness of an optional number (`undefined`, `null` and `0` are falsy). -/
def numTruthy : Option Nat → Bool
  | some n => n != 0
  | none => false

/-- JS `x || null` applied to an optional string field. -/
def orNull (v : Option String) : Option String :=
  if strTruthy v then v else none

/-- `.toLowerCase()`, embedded character-wise so that it evaluates inside the
kernel (the sources only ever lowercase ASCII emails). -/
def jsToLower (s : String) : String := ⟨s.data.map Char.toLower⟩

/-! ## Rate-limit service (src/services/ratelimit.ts)

Configuration constants from the `CONFIG` object. -/

def LOGIN_MAX_ATTEMPTS : Nat := 5
def LOGIN_LOCKOUT_MINUTES : Nat := 15
def API_REQUESTS_PER_MINUTE : Nat := 60
def API_WINDOW_SECONDS : Nat := 60

/-- Stored per-email login attempt record (`{ attempts, lockedUntil? }`),
`lockedUntil` in epoch milliseconds. -/
structure LoginRecord where
  attempts : Nat
  lockedUntil : Option Nat
deriving DecidableEq

/-- The KV key `ratelimit:login:<email lowercased>`. -/
def loginKey (email : String) : String :=
  "ratelimit:login:" ++ jsToLower email

/-- Result of `checkLoginAttempt`. -/
structure LoginCheck where
  allowed : Bool
  remainingAttempts : Int
  retryAfterSeconds : Option Nat
deriving DecidableEq

/-- `RateLimitService.checkLoginAttempt`.  `now` is `Date.now()` in
milliseconds.  Returns the result and the successor attempt store (the expired
branch issues a `kv.delete`). -/
def checkLoginAttempt (store : String → Option LoginRecord) (email : String) (now : Nat) :
    LoginCheck × (String → Option LoginRecord) :=
  let key := loginKey email
  match store key with
  | none => (⟨true, (LOGIN_MAX_ATTEMPTS : Int), none⟩, store)
  | some record =>
    if numTruthy record.lockedUntil = true ∧ now < record.lockedUntil.getD 0 then
      (⟨false, 0, some ((record.lockedUntil.getD 0 - now + 999) / 1000)⟩, store)
    else if numTruthy record.lockedUntil = true ∧ record.lockedUntil.getD 0 ≤ now then
      (⟨true, (LOGIN_MAX_ATTEMPTS : Int), none⟩, upd store key none)
    else
      (⟨true, (LOGIN_MAX_ATTEMPTS : Int) - (record.attempts : Int), none⟩, store)

/-- Result of `recordFailedLogin`. -/
structure RecordOut where
  locked : Bool
  retryAfterSeconds : Option Nat
deriving DecidableEq

/-- `RateLimitService.recordFailedLogin` (the `expirationTtl` passed to
`kv.put` is garbage collection only and is not modelled). -/
def recordFailedLogin (store : String → Option LoginRecord) (email : String) (now : Nat) :
    RecordOut × (String → Option LoginRecord) :=
  let key := loginKey email
  let record : LoginRecord :=
    match store key with
    | some r => { r with attempts := r.attempts + 1 }
    | none => { attempts := 1, lockedUntil := none }
  if LOGIN_MAX_ATTEMPTS ≤ record.attempts then
    let locked := { record with lockedUntil := some (now + LOGIN_LOCKOUT_MINUTES * 60 * 1000) }
    (⟨true, some (LOGIN_LOCKOUT_MINUTES * 60)⟩, upd store key (some locked))
  else
    (⟨false, none⟩, upd store key (some record))

/-- `RateLimitService.clearLoginAttempts`. -/
def clearLoginAttempts (store : String → Option LoginRecord) (email : String) :
    String → Option LoginRecord :=
  upd store (loginKey email) none

/-- The attempt store before any failed login was recorded. -/
def emptyLoginStore : String → Option LoginRecord := fun _ => none

/-- `recordFailedLogin` applied once per element of `ts` (the times, in
milliseconds, of consecutive failed logins for `email`), threading the store. -/
def runFailedLogins (store : String → Option LoginRecord) (email : String) :
    List Nat → (String → Option LoginRecord)
  | [] => store
  | t :: rest => runFailedLogins (recordFailedLogin store email t).2 email rest

/-- Fixed rate window start: `now - now % API_WINDOW_SECONDS` (`now` in seconds). -/
def windowStart (now : Nat) : Nat := now - now % API_WINDOW_SECONDS

/-- The KV key `ratelimit:api:<identifier>:<windowStart>`. -/
def apiKey (identifier : String) (ws : Nat) : String :=
  "ratelimit:api:" ++ identifier ++ ":" ++ toString ws

/-- Result of `checkApiRateLimit`. -/
structure ApiCheck where
  allowed : Bool
  remaining : Nat
  retryAfterSeconds : Option Nat
deriving DecidableEq

/-- `RateLimitService.checkApiRateLimit` (pure read: issues no write). -/
def checkApiRateLimit (store : String → Option Nat) (identifier : String) (now : Nat) :
    ApiCheck :=
  let key := apiKey identifier (windowStart now)
  let count := (store key).getD 0
  if API_REQUESTS_PER_MINUTE ≤ count then
    ⟨false, 0, some (API_WINDOW_SECONDS - now % API_WINDOW_SECONDS)⟩
  else
    ⟨true, API_REQUESTS_PER_MINUTE - count, none⟩

/-- `RateLimitService.incrementApiCount`. -/
def incrementApiCount (store : String → Option Nat) (identifier : String) (now : Nat) :
    String → Option Nat :=
  let key := apiKey identifier (windowStart now)
  upd store key (some ((store key).getD 0 + 1))

/-- One authenticated request through the router (src/router.ts lines
190-210): `checkApiRateLimit`; on success `incrementApiCount` exactly once and
proceed (`true`), on failure respond 429 without incrementing (`false`). -/
def apiRequestStep (store : String → Option Nat) (identifier : String) (t : Nat) :
    Bool × (String → Option Nat) :=
  let check := checkApiRateLimit store identifier t
  if check.allowed then (true, incrementApiCount store identifier t)
  else (false, store)

/-- A sequence of authenticated requests at the given times, threading the
counter store; returns the per-request allowed flags and the final store. -/
def runApiRequests (identifier : String) :
    (String → Option Nat) → List Nat → List Bool × (String → Option Nat)
  | store, [] => ([], store)
  | store, t :: rest =>
    let stp := apiRequestStep store identifier t
    let nxt := runApiRequests identifier stp.2 rest
    (stp.1 :: nxt.1, nxt.2)

/-- The empty API counter store. -/
def emptyApiStore : String → Option Nat := fun _ => none

/-- A concrete attempt store holding an expired lock: 5 attempts, lock expiry
at epoch-millisecond 1000. -/
def lockedExpiredStore : String → Option LoginRecord :=
  upd emptyLoginStore (loginKey "a@b.c") (some ⟨5, some 1000⟩)

/-! ## Data model (src/types.ts)

The structured encrypted payloads inside a cipher (`login`, `card`,
`identity`, `secureNote`, `fields`, `passwordHistory`) are carried as opaque
optional strings: no operation embedded here ever inspects their insides, the
handlers only copy them whole.  Timestamps are opaque ISO strings. -/

structure User where
  id : String
  email : String
  name : String
  masterPasswordHash : String
  key : String
  privateKey : Option String
  publicKey : Option String
  kdfType : Nat
  kdfIterations : Nat
  kdfMemory : Option Nat
  kdfParallelism : Option Nat
  securityStamp : String
  createdAt : String
  updatedAt : String
deriving DecidableEq

structure Cipher where
  id : String
  userId : String
  type : Nat
  folderId : Option String
  name : String
  notes : Option String
  favorite : Bool
  login : Option String
  card : Option String
  identity : Option String
  secureNote : Option String
  fields : Option String
  passwordHistory : Option String
  reprompt : Nat
  createdAt : String
  updatedAt : String
  deletedAt : Option String
deriving DecidableEq

structure Folder where
  id : String
  userId : String
  name : String
  createdAt : String
  updatedAt : String
deriving DecidableEq

structure Attachment where
  id : String
  cipherId : String
  fileName : String
  size : Nat
  sizeName : String
  key : Option String
deriving DecidableEq

/-! ## Storage service (src/services/storage.ts)

The KV namespace is embedded as one record of partial maps, one field per key
prefix (`user:`, `userid:`, `cipher:`, `index:ciphers:`, `folder:`,
`index:folders:`, `attachment:`, `index:attachments:`, `refresh:`,
`revision:`, `config:registered`).  `revTouches` is a ghost counter of
`updateRevisionDate` calls per user, carried to state call-count claims. -/

structure St where
  registered : Bool
  users : String → Option User
  userIdToEmail : String → Option String
  ciphers : String → Option Cipher
  cipherIndex : String → Option (List String)
  folders : String → Option Folder
  folderIndex : String → Option (List String)
  attachments : String → Option Attachment
  attachmentIndex : String → Option (List String)
  refreshTokens : String → Option String
  revision : String → Option String
  revTouches : String → Nat

/-- `StorageService.isRegistered` (`config:registered === 'true'`). -/
def isRegistered (st : St) : Bool := st.registered

/-- `StorageService.setRegistered`. -/
def setRegistered (st : St) : St := { st with registered := true }

/-- `StorageService.getUser`. -/
def getUser (st : St) (email : String) : Option User := st.users (jsToLower email)

/-- `StorageService.getUserById`: id → email mapping, then `getUser`. -/
def getUserById (st : St) (id : String) : Option User :=
  match st.userIdToEmail id with
  | none => none
  | some email => getUser st email

/-- `StorageService.saveUser`: writes the user record and the id → email
mapping. -/
def saveUser (st : St) (user : User) : St :=
  { st with users := upd st.users (jsToLower user.email) (some user),
            userIdToEmail := upd st.userIdToEmail user.id (some (jsToLower user.email)) }

/-- `StorageService.getCipher`. -/
def getCipher (st : St) (id : String) : Option Cipher := st.ciphers id

/-- `StorageService.getCipherIds` (missing index reads as `[]`). -/
def getCipherIds (st : St) (userId : String) : List String :=
  (st.cipherIndex userId).getD []

/-- `StorageService.saveCipher`: writes the record, then ensures membership in
the owner's index. -/
def saveCipher (st : St) (cipher : Cipher) : St :=
  let st1 := { st with ciphers := upd st.ciphers cipher.id (some cipher) }
  let index := getCipherIds st1 cipher.userId
  if cipher.id ∈ index then st1
  else { st1 with cipherIndex := upd st1.cipherIndex cipher.userId (some (index ++ [cipher.id])) }

/-- `StorageService.deleteCipher`: deletes the record and filters the index. -/
def deleteCipher (st : St) (id userId : String) : St :=
  let st1 := { st with ciphers := upd st.ciphers id none }
  let newIndex := (getCipherIds st1 userId).filter (· ≠ id)
  { st1 with cipherIndex := upd st1.cipherIndex userId (some newIndex) }

/-- `StorageService.getAllCiphers`: resolve the index, fetch each member,
silently drop ids whose record fetch returns null. -/
def getAllCiphers (st : St) (userId : String) : List Cipher :=
  (getCipherIds st userId).filterMap (getCipher st)

/-- `StorageService.getFolder`. -/
def getFolder (st : St) (id : String) : Option Folder := st.folders id

/-- `StorageService.getFolderIds`. -/
def getFolderIds (st : St) (userId : String) : List String :=
  (st.folderIndex userId).getD []

/-- `StorageService.saveFolder`. -/
def saveFolder (st : St) (folder : Folder) : St :=
  let st1 := { st with folders := upd st.folders folder.id (some folder) }
  let index := getFolderIds st1 folder.userId
  if folder.id ∈ index then st1
  else { st1 with folderIndex := upd st1.folderIndex folder.userId (some (index ++ [folder.id])) }

/-- `StorageService.deleteFolder`. -/
def deleteFolder (st : St) (id userId : String) : St :=
  let st1 := { st with folders := upd st.folders id none }
  let newIndex := (getFolderIds st1 userId).filter (· ≠ id)
  { st1 with folderIndex := upd st1.folderIndex userId (some newIndex) }

/-- `StorageService.getAllFolders`. -/
def getAllFolders (st : St) (userId : String) : List Folder :=
  (getFolderIds st userId).filterMap (getFolder st)

/-- `StorageService.saveRefreshToken` (30-day TTL not modelled). -/
def saveRefreshToken (st : St) (token userId : String) : St :=
  { st with refreshTokens := upd st.refreshTokens token (some userId) }

/-- `StorageService.deleteRefreshToken`. -/
def deleteRefreshToken (st : St) (token : String) : St :=
  { st with refreshTokens := upd st.refreshTokens token none }

/-- `StorageService.getRevisionDate`: defaults to the current time when the
user has no stored stamp. -/
def getRevisionDate (st : St) (userId : String) (now : String) : String :=
  (st.revision userId).getD now

/-- `StorageService.updateRevisionDate`: writes the current time as the
user's stamp (the ghost counter records the call). -/
def updateRevisionDate (st : St) (userId : String) (now : String) : St :=
  { st with revision := upd st.revision userId (some now),
            revTouches := fun k => if k = userId then st.revTouches k + 1 else st.revTouches k }

/-- The body of `StorageService.bulkMoveCiphers`' loop for one id: fetch,
check ownership, set `folderId` and `updatedAt`, save. -/
def bulkMoveStep (folderId : Option String) (userId now : String) (st : St) (id : String) : St :=
  match getCipher st id with
  | some cipher =>
    if cipher.userId = userId then
      saveCipher st { cipher with folderId := folderId, updatedAt := now }
    else st
  | none => st

/-- `StorageService.bulkMoveCiphers`: the loop over the ids followed by one
`updateRevisionDate`. -/
def bulkMoveCiphers (st : St) (ids : List String) (folderId : Option String)
    (userId now : String) : St :=
  updateRevisionDate (ids.foldl (bulkMoveStep folderId userId now) st) userId now

/-- The expected cipher value at a key after a bulk move touching it. -/
def movedValue (fid : Option String) (u now : String) (v : Option Cipher) : Option Cipher :=
  match v with
  | some c =>
    if c.userId = u then some { c with folderId := fid, updatedAt := now }
    else some c
  | none => none

/-- `StorageService.getAttachment`. -/
def getAttachment (st : St) (id : String) : Option Attachment := st.attachments id

/-- `StorageService.saveAttachment`. -/
def saveAttachment (st : St) (a : Attachment) : St :=
  { st with attachments := upd st.attachments a.id (some a) }

/-- `StorageService.deleteAttachment`. -/
def deleteAttachment (st : St) (id : String) : St :=
  { st with attachments := upd st.attachments id none }

/-- `StorageService.getAttachmentIdsByCipher`. -/
def getAttachmentIdsByCipher (st : St) (cipherId : String) : List String :=
  (st.attachmentIndex cipherId).getD []

/-- `StorageService.getAttachmentsByCipher`. -/
def getAttachmentsByCipher (st : St) (cipherId : String) : List Attachment :=
  (getAttachmentIdsByCipher st cipherId).filterMap (getAttachment st)

/-- `StorageService.addAttachmentToCipher`. -/
def addAttachmentToCipher (st : St) (cipherId attachmentId : String) : St :=
  let ids := getAttachmentIdsByCipher st cipherId
  if attachmentId ∈ ids then st
  else { st with attachmentIndex := upd st.attachmentIndex cipherId (some (ids ++ [attachmentId])) }

/-- `StorageService.removeAttachmentFromCipher`. -/
def removeAttachmentFromCipher (st : St) (cipherId attachmentId : String) : St :=
  let newIds := (getAttachmentIdsByCipher st cipherId).filter (· ≠ attachmentId)
  { st with attachmentIndex := upd st.attachmentIndex cipherId (some newIds) }

/-- `StorageService.deleteAllAttachmentsByCipher`: delete every indexed
attachment record, then delete the index key. -/
def deleteAllAttachmentsByCipher (st : St) (cipherId : String) : St :=
  let st1 := (getAttachmentIdsByCipher st cipherId).foldl deleteAttachment st
  { st1 with attachmentIndex := upd st1.attachmentIndex cipherId none }

/-- `StorageService.updateCipherRevisionDate`. -/
def updateCipherRevisionDate (st : St) (cipherId now : String) : St :=
  match getCipher st cipherId with
  | some cipher =>
    updateRevisionDate (saveCipher st { cipher with updatedAt := now }) cipher.userId now
  | none => st

/-- The states whose cipher records sit under their own id as key — every
state reachable by the handlers, which always store a record at its `id`. -/
def ciphersCoherent (st : St) : Prop :=
  ∀ id c, st.ciphers id = some c → c.id = id

/-- As `ciphersCoherent`, for folder records. -/
def foldersCoherent (st : St) : Prop :=
  ∀ id f, st.folders id = some f → f.id = id

/-! ## Responses (src/utils/response.ts and the handlers' shapes)

A handler returns either `jsonResponse(payload, 200)`, an `errorResponse`
with a message and status, or an empty `Response` with a bare status. -/

inductive HOut (α : Type) where
  | ok (payload : α)
  | err (msg : String) (status : Nat)
  | noContent (status : Nat)
deriving DecidableEq

def HOut.status {α : Type} : HOut α → Nat
  | .ok _ => 200
  | .err _ s => s
  | .noContent s => s

/-- The `folderToResponse` shape from src/handlers/folders.ts. -/
structure FolderResponse where
  id : String
  name : String
  revisionDate : String
  object : String
deriving DecidableEq

def folderToResponse (folder : Folder) : FolderResponse :=
  ⟨folder.id, folder.name, folder.updatedAt, "folder"⟩

/-- One formatted attachment of a cipher response. -/
structure AttachmentView where
  id : String
  fileName : String
  size : String
  sizeName : String
  key : Option String
  object : String
deriving DecidableEq

/-- `formatAttachments` from src/handlers/ciphers.ts: an empty list becomes
`null`. -/
def formatAttachments (attachments : List Attachment) : Option (List AttachmentView) :=
  if attachments = [] then none
  else some (attachments.map fun a => ⟨a.id, a.fileName, toString a.size, a.sizeName, a.key, "attachment"⟩)

structure CipherPermissions where
  delete : Bool
  restore : Bool
  edit : Bool
deriving DecidableEq

/-- The `cipherToResponse` shape from src/handlers/ciphers.ts. -/
structure CipherResponse where
  id : String
  organizationId : Option String
  folderId : Option String
  type : Nat
  name : String
  notes : Option String
  favorite : Bool
  login : Option String
  card : Option String
  identity : Option String
  secureNote : Option String
  fields : Option String
  passwordHistory : Option String
  reprompt : Nat
  organizationUseTotp : Bool
  creationDate : String
  revisionDate : String
  deletedDate : Option String
  edit : Bool
  viewPassword : Bool
  permissions : CipherPermissions
  object : String
  collectionIds : List String
  attachments : Option (List AttachmentView)
deriving DecidableEq

def cipherToResponse (cipher : Cipher) (attachments : List Attachment) : CipherResponse :=
  { id := cipher.id
    organizationId := none
    folderId := cipher.folderId
    type := cipher.type
    name := cipher.name
    notes := cipher.notes
    favorite := cipher.favorite
    login := cipher.login
    card := cipher.card
    identity := cipher.identity
    secureNote := cipher.secureNote
    fields := cipher.fields
    passwordHistory := cipher.passwordHistory
    reprompt := cipher.reprompt
    organizationUseTotp := false
    creationDate := cipher.createdAt
    revisionDate := cipher.updatedAt
    deletedDate := cipher.deletedAt
    edit := true
    viewPassword := true
    permissions := ⟨true, true, true⟩
    object := "cipher"
    collectionIds := []
    attachments := formatAttachments attachments }

/-! ## Folder handlers (src/handlers/folders.ts)

The parsed request body; `none` stands for a JSON parse failure. -/

structure FolderBody where
  name : Option String
deriving DecidableEq

/-- `handleCreateFolder` (POST /api/folders).  `freshId` is the generated
UUID, `now` the current ISO time. -/
def handleCreateFolder (st : St) (userId : String) (body : Option FolderBody)
    (freshId now : String) : HOut FolderResponse × St :=
  match body with
  | none => (.err "Invalid JSON" 400, st)
  | some body =>
    if strTruthy body.name = false then (.err "Name is required" 400, st)
    else
      let folder : Folder := ⟨freshId, userId, body.name.getD "", now, now⟩
      (.ok (folderToResponse folder), saveFolder st folder)

/-- `handleUpdateFolder` (PUT /api/folders/:id). -/
def handleUpdateFolder (st : St) (userId fid : String) (body : Option FolderBody)
    (now : String) : HOut FolderResponse × St :=
  match getFolder st fid with
  | none => (.err "Folder not found" 404, st)
  | some folder =>
    if folder.userId ≠ userId then (.err "Folder not found" 404, st)
    else match body with
    | none => (.err "Invalid JSON" 400, st)
    | some body =>
      let folder1 := if strTruthy body.name then { folder with name := body.name.getD "" } else folder
      let folder2 := { folder1 with updatedAt := now }
      (.ok (folderToResponse folder2), saveFolder st folder2)

/-- `handleDeleteFolder` (DELETE /api/folders/:id). -/
def handleDeleteFolder (st : St) (userId fid : String) : HOut FolderResponse × St :=
  match getFolder st fid with
  | none => (.err "Folder not found" 404, st)
  | some folder =>
    if folder.userId ≠ userId then (.err "Folder not found" 404, st)
    else (.noContent 204, deleteFolder st fid userId)

/-! ## Cipher handlers (src/handlers/ciphers.ts)

Request bodies.  `body.cipher || body` unwrapping is done by the caller, so
the body here is the cipher data object itself.  For fields merged with `??`
the body field is `Option β` (`none` = absent or null); for fields compared
with `!== undefined` it is `Option (Option β)` (`none` = absent, `some none`
= explicit null). -/

structure CipherBody where
  type : Nat
  folderId : Option String
  name : String
  notes : Option String
  favorite : Option Bool
  login : Option String
  card : Option String
  identity : Option String
  secureNote : Option String
  fields : Option String
  passwordHistory : Option String
  reprompt : Option Nat
deriving DecidableEq

/-- `handleCreateCipher` (POST /api/ciphers). -/
def handleCreateCipher (st : St) (userId : String) (body : Option CipherBody)
    (freshId now : String) : HOut CipherResponse × St :=
  match body with
  | none => (.err "Invalid JSON" 400, st)
  | some b =>
    let cipher : Cipher :=
      { id := freshId
        userId := userId
        type := b.type
        folderId := orNull b.folderId
        name := b.name
        notes := orNull b.notes
        favorite := b.favorite.getD false
        login := orNull b.login
        card := orNull b.card
        identity := orNull b.identity
        secureNote := orNull b.secureNote
        fields := orNull b.fields
        passwordHistory := orNull b.passwordHistory
        reprompt := b.reprompt.getD 0
        createdAt := now
        updatedAt := now
        deletedAt := none }
    (.ok (cipherToResponse cipher []), updateRevisionDate (saveCipher st cipher) userId now)

structure CipherUpdateBody where
  type : Option Nat
  folderId : Option (Option String)
  name : Option String
  notes : Option (Option String)
  favorite : Option Bool
  login : Option (Option String)
  card : Option (Option String)
  identity : Option (Option String)
  secureNote : Option (Option String)
  fields : Option (Option String)
  passwordHistory : Option (Option String)
  reprompt : Option Nat
deriving DecidableEq

/-- `handleUpdateCipher` (PUT /api/ciphers/:id). -/
def handleUpdateCipher (st : St) (userId cid : String) (body : Option CipherUpdateBody)
    (now : String) : HOut CipherResponse × St :=
  match getCipher st cid with
  | none => (.err "Cipher not found" 404, st)
  | some existing =>
    if existing.userId ≠ userId then (.err "Cipher not found" 404, st)
    else match body with
    | none => (.err "Invalid JSON" 400, st)
    | some b =>
      let cipher : Cipher :=
        { existing with
          type := b.type.getD existing.type
          folderId := b.folderId.getD existing.folderId
          name := b.name.getD existing.name
          notes := b.notes.getD existing.notes
          favorite := b.favorite.getD existing.favorite
          login := b.login.getD existing.login
          card := b.card.getD existing.card
          identity := b.identity.getD existing.identity
          secureNote := b.secureNote.getD existing.secureNote
          fields := b.fields.getD existing.fields
          passwordHistory := b.passwordHistory.getD existing.passwordHistory
          reprompt := b.reprompt.getD existing.reprompt
          updatedAt := now }
      (.ok (cipherToResponse cipher []), updateRevisionDate (saveCipher st cipher) userId now)

/-- `handleDeleteCipher` (soft delete). -/
def handleDeleteCipher (st : St) (userId cid : String) (now : String) :
    HOut CipherResponse × St :=
  match getCipher st cid with
  | none => (.err "Cipher not found" 404, st)
  | some cipher =>
    if cipher.userId ≠ userId then (.err "Cipher not found" 404, st)
    else
      let cipher1 := { cipher with deletedAt := some now, updatedAt := now }
      (.ok (cipherToResponse cipher1 []), updateRevisionDate (saveCipher st cipher1) userId now)

/-- The attachment-handler helper `deleteAllAttachmentsForCipher`.
Modelled from the spec: src/handlers/attachments.ts is absent from the
sources; the spec places attachment CRUD outside the core, so the helper is
modelled as removing the cipher's attachment records and index (matching
`StorageService.deleteAllAttachmentsByCipher`), touching no cipher, folder,
revision or registration state. -/
def deleteAllAttachmentsForCipher (st : St) (cipherId : String) : St :=
  deleteAllAttachmentsByCipher st cipherId

/-- `handlePermanentDeleteCipher` (DELETE /api/ciphers/:id/delete). -/
def handlePermanentDeleteCipher (st : St) (userId cid : String) (now : String) :
    HOut CipherResponse × St :=
  match getCipher st cid with
  | none => (.err "Cipher not found" 404, st)
  | some cipher =>
    if cipher.userId ≠ userId then (.err "Cipher not found" 404, st)
    else
      let st1 := deleteAllAttachmentsForCipher st cid
      (.noContent 204, updateRevisionDate (deleteCipher st1 cid userId) userId now)

/-- `handleRestoreCipher` (PUT /api/ciphers/:id/restore). -/
def handleRestoreCipher (st : St) (userId cid : String) (now : String) :
    HOut CipherResponse × St :=
  match getCipher st cid with
  | none => (.err "Cipher not found" 404, st)
  | some cipher =>
    if cipher.userId ≠ userId then (.err "Cipher not found" 404, st)
    else
      let cipher1 := { cipher with deletedAt := none, updatedAt := now }
      (.ok (cipherToResponse cipher1 []), updateRevisionDate (saveCipher st cipher1) userId now)

structure CipherPartialBody where
  folderId : Option (Option String)
  favorite : Option Bool
deriving DecidableEq

/-- `handlePartialUpdateCipher` (PUT /api/ciphers/:id/partial): sets only
`folderId` and `favorite` when present in the body. -/
def handlePartialUpdateCipher (st : St) (userId cid : String)
    (body : Option CipherPartialBody) (now : String) : HOut CipherResponse × St :=
  match getCipher st cid with
  | none => (.err "Cipher not found" 404, st)
  | some cipher =>
    if cipher.userId ≠ userId then (.err "Cipher not found" 404, st)
    else match body with
    | none => (.err "Invalid JSON" 400, st)
    | some b =>
      let c1 := match b.folderId with
        | some v => { cipher with folderId := v }
        | none => cipher
      let c2 := match b.favorite with
        | some v => { c1 with favorite := v }
        | none => c1
      let c3 := { c2 with updatedAt := now }
      (.ok (cipherToResponse c3 []), updateRevisionDate (saveCipher st c3) userId now)

structure BulkMoveBody where
  ids : Option (List String)
  folderId : Option String
deriving DecidableEq

/-- `handleBulkMoveCiphers` (POST/PUT /api/ciphers/move). -/
def handleBulkMoveCiphers (st : St) (userId : String) (body : Option BulkMoveBody)
    (now : String) : HOut CipherResponse × St :=
  match body with
  | none => (.err "Invalid JSON" 400, st)
  | some b =>
    match b.ids with
    | none => (.err "ids array is required" 400, st)
    | some ids =>
      (.noContent 204, bulkMoveCiphers st ids (orNull b.folderId) userId now)

/-- `handleGetCiphers` (GET /api/ciphers): a pure read; `includeDeleted`
reflects the `?deleted=true` query parameter. -/
def handleGetCiphers (st : St) (userId : String) (includeDeleted : Bool) :
    HOut (List CipherResponse) :=
  let ciphers := getAllCiphers st userId
  let filtered := if includeDeleted then ciphers
    else ciphers.filter fun c => strTruthy c.deletedAt = false
  .ok (filtered.map fun c => cipherToResponse c (getAttachmentsByCipher st c.id))

/-- `handleGetCipher` (GET /api/ciphers/:id): a pure read. -/
def handleGetCipher (st : St) (userId cid : String) : HOut CipherResponse :=
  match getCipher st cid with
  | none => .err "Cipher not found" 404
  | some cipher =>
    if cipher.userId ≠ userId then .err "Cipher not found" 404
    else .ok (cipherToResponse cipher (getAttachmentsByCipher st cipher.id))

/-! ## Account handlers (src/handlers/accounts.ts) -/

structure ProfileResponse where
  id : String
  name : String
  email : String
  emailVerified : Bool
  premium : Bool
  premiumFromOrganization : Bool
  usesKeyConnector : Bool
  masterPasswordHint : Option String
  culture : String
  twoFactorEnabled : Bool
  key : String
  privateKey : Option String
  securityStamp : String
  organizations : List String
  providers : List String
  providerOrganizations : List String
  forcePasswordReset : Bool
  avatarColor : Option String
  creationDate : String
  object : String
deriving DecidableEq

/-- The profile shape built by `handleGetProfile`
(`securityStamp: user.securityStamp || user.id`). -/
def profileOf (user : User) : ProfileResponse :=
  { id := user.id
    name := user.name
    email := user.email
    emailVerified := true
    premium := true
    premiumFromOrganization := false
    usesKeyConnector := false
    masterPasswordHint := none
    culture := "en-US"
    twoFactorEnabled := false
    key := user.key
    privateKey := user.privateKey
    securityStamp := if user.securityStamp != "" then user.securityStamp else user.id
    organizations := []
    providers := []
    providerOrganizations := []
    forcePasswordReset := false
    avatarColor := none
    creationDate := user.createdAt
    object := "profile" }

/-- `handleGetProfile` (GET /api/accounts/profile): a pure read. -/
def handleGetProfile (st : St) (userId : String) : HOut ProfileResponse :=
  match getUserById st userId with
  | none => .err "User not found" 404
  | some user => .ok (profileOf user)

structure ProfileBody where
  name : Option String
  masterPasswordHint : Option String
deriving DecidableEq

/-- `handleUpdateProfile` (PUT /api/accounts/profile): updates the user
record, then re-runs `handleGetProfile` on the saved state. -/
def handleUpdateProfile (st : St) (userId : String) (body : Option ProfileBody)
    (now : String) : HOut ProfileResponse × St :=
  match getUserById st userId with
  | none => (.err "User not found" 404, st)
  | some user =>
    match body with
    | none => (.err "Invalid JSON" 400, st)
    | some b =>
      let user1 := if strTruthy b.name then { user with name := b.name.getD "" } else user
      let user2 := { user1 with updatedAt := now }
      let st1 := saveUser st user2
      (handleGetProfile st1 userId, st1)

structure KeysBody where
  key : Option String
  encryptedPrivateKey : Option String
  publicKey : Option String
deriving DecidableEq

/-- `handleSetKeys` (POST /api/accounts/keys). -/
def handleSetKeys (st : St) (userId : String) (body : Option KeysBody)
    (now : String) : HOut ProfileResponse × St :=
  match getUserById st userId with
  | none => (.err "User not found" 404, st)
  | some user =>
    match body with
    | none => (.err "Invalid JSON" 400, st)
    | some b =>
      let u1 := if strTruthy b.key then { user with key := b.key.getD "" } else user
      let u2 := if strTruthy b.encryptedPrivateKey then { u1 with privateKey := b.encryptedPrivateKey } else u1
      let u3 := if strTruthy b.publicKey then { u2 with publicKey := b.publicKey } else u2
      let u4 := { u3 with updatedAt := now }
      let st1 := saveUser st u4
      (handleGetProfile st1 userId, st1)

structure RegisterBody where
  email : Option String
  name : Option String
  masterPasswordHash : Option String
  key : Option String
  kdf : Option Nat
  kdfIterations : Option Nat
  kdfMemory : Option Nat
  kdfParallelism : Option Nat
  keysPublicKey : Option String
  keysEncryptedPrivateKey : Option String
deriving DecidableEq

/-- `handleRegister` (POST /api/accounts/register): closed once
`config:registered` is set; otherwise validates the body, creates the single
user and sets the registered flag.  `freshId` and `freshStamp` are the two
generated UUIDs. -/
def handleRegister (st : St) (body : Option RegisterBody)
    (freshId freshStamp now : String) : HOut Bool × St :=
  if st.registered then (.err "Registration is closed" 403, st)
  else match body with
  | none => (.err "Invalid JSON" 400, st)
  | some b =>
    let email := b.email.map jsToLower
    let name := if strTruthy b.name then b.name else email
    if strTruthy email = false ∨ strTruthy b.masterPasswordHash = false ∨
        strTruthy b.key = false then
      (.err "Email, masterPasswordHash, and key are required" 400, st)
    else if strTruthy b.keysEncryptedPrivateKey = false ∨
        strTruthy b.keysPublicKey = false then
      (.err "Private key and public key are required" 400, st)
    else
      let user : User :=
        { id := freshId
          email := email.getD ""
          name := (if strTruthy name then name else email).getD ""
          masterPasswordHash := b.masterPasswordHash.getD ""
          key := b.key.getD ""
          privateKey := b.keysEncryptedPrivateKey
          publicKey := b.keysPublicKey
          kdfType := b.kdf.getD 0
          kdfIterations := b.kdfIterations.getD 600000
          kdfMemory := b.kdfMemory
          kdfParallelism := b.kdfParallelism
          securityStamp := freshStamp
          createdAt := now
          updatedAt := now }
      (.ok true, setRegistered (saveUser st user))

/-! ## Worker entry point (src/index.ts) -/

/-- The fetch gate: with a missing or empty `JWT_SECRET` every request gets a
plain 500 and the router is never invoked; otherwise (a short secret only
logs a `console.warn`) the request is routed.  `route` stands for
`handleRequest`. -/
inductive FetchOut (α : Type) where
  | configError (status : Nat) (msg : String)
  | routed (r : α)
deriving DecidableEq

def workerFetch {α : Type} (secret : Option String) (route : St → α × St) (st : St) :
    FetchOut α × St :=
  if secret.getD "" = "" then
    (.configError 500 "Server configuration error: JWT_SECRET is not set", st)
  else
    let out := route st
    (.routed out.1, out.2)

/-! ## The vault-state mutators of the system

Every KV write in the sources goes through one of the `StorageService`
methods embedded above (the rate-limit service writes only `ratelimit:*`
keys, embedded as separate stores); `Op` enumerates those methods together
with the state-changing handlers embedded above, so that flag-monotonicity
can be stated over all of them. -/

inductive Op where
  | opSetRegistered
  | opSaveUser (u : User)
  | opSaveCipher (c : Cipher)
  | opDeleteCipher (id userId : String)
  | opSaveFolder (f : Folder)
  | opDeleteFolder (id userId : String)
  | opSaveAttachment (a : Attachment)
  | opDeleteAttachment (id : String)
  | opAddAttachmentToCipher (cipherId attachmentId : String)
  | opRemoveAttachmentFromCipher (cipherId attachmentId : String)
  | opDeleteAllAttachmentsByCipher (cipherId : String)
  | opSaveRefreshToken (token userId : String)
  | opDeleteRefreshToken (token : String)
  | opUpdateRevisionDate (userId now : String)
  | opUpdateCipherRevisionDate (cipherId now : String)
  | opBulkMoveCiphers (ids : List String) (folderId : Option String) (userId now : String)
  | opHandleRegister (body : Option RegisterBody) (freshId freshStamp now : String)
  | opHandleCreateFolder (userId : String) (body : Option FolderBody) (freshId now : String)
  | opHandleUpdateFolder (userId fid : String) (body : Option FolderBody) (now : String)
  | opHandleDeleteFolder (userId fid : String)
  | opHandleCreateCipher (userId : String) (body : Option CipherBody) (freshId now : String)
  | opHandleUpdateCipher (userId cid : String) (body : Option CipherUpdateBody) (now : String)
  | opHandleDeleteCipher (userId cid : String) (now : String)
  | opHandlePermanentDeleteCipher (userId cid : String) (now : String)
  | opHandleRestoreCipher (userId cid : String) (now : String)
  | opHandlePartialUpdateCipher (userId cid : String) (body : Option CipherPartialBody) (now : String)
  | opHandleBulkMoveCiphers (userId : String) (body : Option BulkMoveBody) (now : String)
  | opHandleUpdateProfile (userId : String) (body : Option ProfileBody) (now : String)
  | opHandleSetKeys (userId : String) (body : Option KeysBody) (now : String)

def stepOp : Op → St → St
  | .opSetRegistered, st => setRegistered st
  | .opSaveUser u, st => saveUser st u
  | .opSaveCipher c, st => saveCipher st c
  | .opDeleteCipher id userId, st => deleteCipher st id userId
  | .opSaveFolder f, st => saveFolder st f
  | .opDeleteFolder id userId, st => deleteFolder st id userId
  | .opSaveAttachment a, st => saveAttachment st a
  | .opDeleteAttachment id, st => deleteAttachment st id
  | .opAddAttachmentToCipher c a, st => addAttachmentToCipher st c a
  | .opRemoveAttachmentFromCipher c a, st => removeAttachmentFromCipher st c a
  | .opDeleteAllAttachmentsByCipher c, st => deleteAllAttachmentsByCipher st c
  | .opSaveRefreshToken t u, st => saveRefreshToken st t u
  | .opDeleteRefreshToken t, st => deleteRefreshToken st t
  | .opUpdateRevisionDate u now, st => updateRevisionDate st u now
  | .opUpdateCipherRevisionDate c now, st => updateCipherRevisionDate st c now
  | .opBulkMoveCiphers ids fid u now, st => bulkMoveCiphers st ids fid u now
  | .opHandleRegister b f1 f2 now, st => (handleRegister st b f1 f2 now).2
  | .opHandleCreateFolder u b f now, st => (handleCreateFolder st u b f now).2
  | .opHandleUpdateFolder u fid b now, st => (handleUpdateFolder st u fid b now).2
  | .opHandleDeleteFolder u fid, st => (handleDeleteFolder st u fid).2
  | .opHandleCreateCipher u b f now, st => (handleCreateCipher st u b f now).2
  | .opHandleUpdateCipher u c b now, st => (handleUpdateCipher st u c b now).2
  | .opHandleDeleteCipher u c now, st => (handleDeleteCipher st u c now).2
  | .opHandlePermanentDeleteCipher u c now, st => (handlePermanentDeleteCipher st u c now).2
  | .opHandleRestoreCipher u c now, st => (handleRestoreCipher st u c now).2
  | .opHandlePartialUpdateCipher u c b now, st => (handlePartialUpdateCipher st u c b now).2
  | .opHandleBulkMoveCiphers u b now, st => (handleBulkMoveCiphers st u b now).2
  | .opHandleUpdateProfile u b now, st => (handleUpdateProfile st u b now).2
  | .opHandleSetKeys u b now, st => (handleSetKeys st u b now).2

/-! ## A concrete sample vault state, used to evaluate the claims -/

def user6 : User :=
  ⟨"u1", "alice@x.y", "Alice", "hash1", "ukey1", some "priv1", some "pub1",
   0, 600000, none, none, "stamp1",
   "2024-01-01T00:00:00.000Z", "2024-01-01T00:00:00.000Z"⟩

def fold0 : Folder :=
  ⟨"f1", "u1", "Old", "2024-01-01T00:00:00.000Z", "2024-01-01T00:00:00.000Z"⟩

def cip1 : Cipher :=
  ⟨"c1", "u1", 1, some "f1", "n1", none, false, none, none, none, none, none,
   none, 0, "2024-01-01T00:00:00.000Z", "2024-01-01T00:00:00.000Z", none⟩

/-- A registered single-user state: one user `u1`, one folder `f1`, one cipher
`c1` filed under `f1`, a dangling id `gone` left in the cipher index and
`fgone` in the folder index, and a stored revision stamp. -/
def sampleSt : St :=
  { registered := true
    users := upd (fun _ => none) "alice@x.y" (some user6)
    userIdToEmail := upd (fun _ => none) "u1" (some "alice@x.y")
    ciphers := upd (fun _ => none) "c1" (some cip1)
    cipherIndex := upd (fun _ => none) "u1" (some ["c1", "gone"])
    folders := upd (fun _ => none) "f1" (some fold0)
    folderIndex := upd (fun _ => none) "u1" (some ["f1", "fgone"])
    attachments := fun _ => none
    attachmentIndex := fun _ => none
    refreshTokens := fun _ => none
    revision := upd (fun _ => none) "u1" (some "2024-01-01T00:00:00.000Z")
    revTouches := fun _ => 0 }

end NodeWarden

namespace NodeWarden

/-! ## Helper lemmas -/

@[simp] theorem upd_same {α : Type} (f : String → α) (k : String) (v : α) :
    upd f k v k = v := by simp [upd]

theorem upd_other {α : Type} (f : String → α) (k x : String) (v : α) (h : x ≠ k) :
    upd f k v x = f x := by simp [upd, h]

/-- After `ts` consecutive failed logins on top of a store holding `k` prior
failures (below the threshold), the record holds `k + ts.length` attempts and
no lock, as long as the total stays below the threshold. -/
theorem runFailedLogins_below (email : String) :
    ∀ (ts : List Nat) (store : String → Option LoginRecord) (k : Nat),
      store (loginKey email) = (if k = 0 then none else some ⟨k, none⟩) →
      k + ts.length < 5 →
      (runFailedLogins store email ts) (loginKey email) =
        (if k + ts.length = 0 then none else some ⟨k + ts.length, none⟩) := by
  intro ts
  induction ts with
  | nil => intro store k hk _; simpa using hk
  | cons t rest ih =>
    intro store k hk hlt
    have hk1 : k + 1 < 5 := by simp at hlt; omega
    have hstep : (recordFailedLogin store email t).2 (loginKey email) =
        some ⟨k + 1, none⟩ := by
      by_cases h0 : k = 0
      · subst h0
        simp only [recordFailedLogin, hk, if_pos rfl]
        have : ¬ LOGIN_MAX_ATTEMPTS ≤ (1 : Nat) := by decide
        simp [this]
      · simp only [recordFailedLogin, hk, if_neg h0]
        have : ¬ LOGIN_MAX_ATTEMPTS ≤ k + 1 := by
          simp [LOGIN_MAX_ATTEMPTS]; omega
        simp [this]
    have := ih (recordFailedLogin store email t).2 (k + 1)
      (by rw [hstep]; simp) (by simp at hlt ⊢; omega)
    simp only [runFailedLogins]
    rw [this]
    have hne : k + 1 + rest.length ≠ 0 := by omega
    have hne2 : k + (t :: rest).length ≠ 0 := by simp
    simp only [if_neg hne, if_neg hne2]
    congr 2
    simp; omega

/-- Processing same-window requests: with `k` already counted and room to
spare, every request is allowed and the counter advances by one per request. -/
theorem runApiRequests_allowed (identifier : String) (w : Nat) :
    ∀ (ts : List Nat) (store : String → Option Nat) (k : Nat),
      (∀ t ∈ ts, windowStart t = w) →
      (store (apiKey identifier w)).getD 0 = k →
      k + ts.length ≤ 60 →
      (runApiRequests identifier store ts).1 = List.replicate ts.length true ∧
      ((runApiRequests identifier store ts).2 (apiKey identifier w)).getD 0 =
        k + ts.length := by
  intro ts
  induction ts with
  | nil => intro store k _ hk _; simp [runApiRequests, hk]
  | cons t rest ih =>
    intro store k hw hk hle
    have hwt : windowStart t = w := hw t (by simp)
    have hklt : ¬ API_REQUESTS_PER_MINUTE ≤ k := by
      simp [API_REQUESTS_PER_MINUTE]; simp at hle; omega
    have hcheck : (checkApiRateLimit store identifier t).allowed = true := by
      simp only [checkApiRateLimit, hwt, hk]
      simp [hklt]
    have hstep : apiRequestStep store identifier t =
        (true, incrementApiCount store identifier t) := by
      simp [apiRequestStep, hcheck]
    have hinc : ((incrementApiCount store identifier t) (apiKey identifier w)).getD 0 =
        k + 1 := by
      simp only [incrementApiCount, hwt, hk]
      simp
    have := ih (incrementApiCount store identifier t) (k + 1)
      (fun x hx => hw x (by simp [hx])) hinc (by simp at hle; omega)
    refine ⟨?_, ?_⟩
    · simp only [runApiRequests, hstep]
      simp [this.1, List.replicate_succ]
    · simp only [runApiRequests, hstep]
      simpa [Nat.add_assoc, Nat.add_comm, Nat.add_left_comm] using this.2

/-- The 5th consecutive `recordFailedLogin` locks the record: it stores
`attempts = 5` with `lockedUntil = t5 + 900000` ms and reports 900 s. -/
theorem recordFifth (email : String) (ts : List Nat) (t5 : Nat) (h4 : ts.length = 4) :
    recordFailedLogin (runFailedLogins emptyLoginStore email ts) email t5 =
      (⟨true, some 900⟩,
       upd (runFailedLogins emptyLoginStore email ts) (loginKey email)
           (some ⟨5, some (t5 + 900000)⟩)) := by
  have hS := runFailedLogins_below email ts emptyLoginStore 0
    (by simp [emptyLoginStore]) (by omega)
  simp only [Nat.zero_add, h4] at hS
  norm_num at hS
  simp only [recordFailedLogin, hS]
  norm_num [LOGIN_MAX_ATTEMPTS, LOGIN_LOCKOUT_MINUTES]

theorem check_after_n_fails (email : String) (ts : List Nat) (t : Nat)
    (h : ts.length < 5) :
    (checkLoginAttempt (runFailedLogins emptyLoginStore email ts) email t).1.allowed = true := by
  have hS := runFailedLogins_below email ts emptyLoginStore 0
    (by simp [emptyLoginStore]) (by omega)
  simp only [Nat.zero_add] at hS
  by_cases h0 : ts.length = 0
  · simp only [h0, if_pos rfl] at hS
    simp [checkLoginAttempt, hS]
  · simp only [if_neg h0] at hS
    simp [checkLoginAttempt, hS, numTruthy]

/-- C2: starting from no attempt record for an email, `checkLoginAttempt`
still allows after N < 5 consecutive `recordFailedLogin` calls; the 5th call
locks the record with `lockedUntil = now + 15` minutes, reporting
`retryAfterSeconds = 900`; while the lock window has not elapsed
`checkLoginAttempt` refuses with a positive `retryAfterSeconds`, and allows
again once it has elapsed. -/
theorem claim_C2_login_lockout_cycle (email : String) :
    (∀ (ts : List Nat) (t : Nat), ts.length < 5 →
      (checkLoginAttempt (runFailedLogins emptyLoginStore email ts) email t).1.allowed = true) ∧
    (∀ (ts : List Nat) (t5 : Nat), ts.length = 4 →
      recordFailedLogin (runFailedLogins emptyLoginStore email ts) email t5 =
        (⟨true, some (LOGIN_LOCKOUT_MINUTES * 60)⟩,
         upd (runFailedLogins emptyLoginStore email ts) (loginKey email)
             (some ⟨5, some (t5 + LOGIN_LOCKOUT_MINUTES * 60 * 1000)⟩))) ∧
    (∀ (ts : List Nat) (t5 t : Nat), ts.length = 4 → t < t5 + 900000 →
      (checkLoginAttempt
          (recordFailedLogin (runFailedLogins emptyLoginStore email ts) email t5).2
          email t).1.allowed = false ∧
      ∃ r, (checkLoginAttempt
          (recordFailedLogin (runFailedLogins emptyLoginStore email ts) email t5).2
          email t).1.retryAfterSeconds = some r ∧ 0 < r) ∧
    (∀ (ts : List Nat) (t5 t : Nat), ts.length = 4 → t5 + 900000 ≤ t →
      (checkLoginAttempt
          (recordFailedLogin (runFailedLogins emptyLoginStore email ts) email t5).2
          email t).1.allowed = true) := by
  refine ⟨check_after_n_fails email, ?_, ?_, ?_⟩
  · intro ts t5 h4
    have := recordFifth email ts t5 h4
    simpa [LOGIN_LOCKOUT_MINUTES] using this
  · intro ts t5 t h4 hlt
    rw [recordFifth email ts t5 h4]
    have hkey : (upd (runFailedLogins emptyLoginStore email ts) (loginKey email)
        (some ⟨5, some (t5 + 900000)⟩)) (loginKey email) =
        some ⟨5, some (t5 + 900000)⟩ := upd_same _ _ _
    have hnz : t5 + 900000 ≠ 0 := by omega
    constructor
    · simp [checkLoginAttempt, hkey, numTruthy, hnz, hlt]
    · refine ⟨(t5 + 900000 - t + 999) / 1000, ?_, ?_⟩
      · simp [checkLoginAttempt, hkey, numTruthy, hnz, hlt]
      · have h1 : 1 ≤ t5 + 900000 - t := by omega
        have := (Nat.le_div_iff_mul_le (k := 1000) (by norm_num)).mpr
          (show 1 * 1000 ≤ t5 + 900000 - t + 999 by omega)
        omega
  · intro ts t5 t h4 hle
    rw [recordFifth email ts t5 h4]
    have hkey : (upd (runFailedLogins emptyLoginStore email ts) (loginKey email)
        (some ⟨5, some (t5 + 900000)⟩)) (loginKey email) =
        some ⟨5, some (t5 + 900000)⟩ := upd_same _ _ _
    have hnz : t5 + 900000 ≠ 0 := by omega
    have hnlt : ¬ t < t5 + 900000 := by omega
    simp [checkLoginAttempt, hkey, numTruthy, hnz, hnlt, hle]

/-- Witness for C2 at the concrete email `a@b.c` and concrete times. -/
theorem claim_C2_login_lockout_cycle_witness :
    (checkLoginAttempt (runFailedLogins emptyLoginStore "a@b.c" [0, 1, 2]) "a@b.c" 50).1.allowed
        = true ∧
    recordFailedLogin (runFailedLogins emptyLoginStore "a@b.c" [0, 1, 2, 3]) "a@b.c" 100 =
      (⟨true, some (LOGIN_LOCKOUT_MINUTES * 60)⟩,
       upd (runFailedLogins emptyLoginStore "a@b.c" [0, 1, 2, 3]) (loginKey "a@b.c")
           (some ⟨5, some (100 + LOGIN_LOCKOUT_MINUTES * 60 * 1000)⟩)) ∧
    (checkLoginAttempt
        (recordFailedLogin (runFailedLogins emptyLoginStore "a@b.c" [0, 1, 2, 3]) "a@b.c" 100).2
        "a@b.c" 5000).1.allowed = false ∧
    (checkLoginAttempt
        (recordFailedLogin (runFailedLogins emptyLoginStore "a@b.c" [0, 1, 2, 3]) "a@b.c" 100).2
        "a@b.c" 900100).1.allowed = true := by
  have h := claim_C2_login_lockout_cycle "a@b.c"
  exact ⟨h.1 [0, 1, 2] 50 (by decide), h.2.1 [0, 1, 2, 3] 100 (by decide),
    (h.2.2.1 [0, 1, 2, 3] 100 5000 (by decide) (by decide)).1,
    h.2.2.2 [0, 1, 2, 3] 100 900100 (by decide) (by decide)⟩

/-- C3: for one identity, 60 requests within one fixed 60-second window are
all allowed through the router's check-and-increment sequence; the 61st
request in the same window is rejected by `checkApiRateLimit` with
`retryAfterSeconds = 60 - now % 60`, which is positive and at most 60. -/
theorem claim_C3_api_rate_limit_61st (identifier : String) (ts : List Nat) (t61 : Nat)
    (hlen : ts.length = 60)
    (hw : ∀ t ∈ ts, windowStart t = windowStart t61) :
    (runApiRequests identifier emptyApiStore ts).1 = List.replicate 60 true ∧
    (checkApiRateLimit (runApiRequests identifier emptyApiStore ts).2 identifier t61).allowed
        = false ∧
    (checkApiRateLimit (runApiRequests identifier emptyApiStore ts).2 identifier t61).retryAfterSeconds
        = some (60 - t61 % 60) ∧
    0 < 60 - t61 % 60 ∧ 60 - t61 % 60 ≤ 60 := by
  have h := runApiRequests_allowed identifier (windowStart t61) ts emptyApiStore 0 hw
    (by simp [emptyApiStore]) (by omega)
  have hcount : ((runApiRequests identifier emptyApiStore ts).2
      (apiKey identifier (windowStart t61))).getD 0 = 60 := by
    rw [h.2, hlen]
  have hmod : t61 % 60 < 60 := Nat.mod_lt _ (by norm_num)
  refine ⟨by rw [h.1, hlen], ?_, ?_, by omega, by omega⟩
  · simp [checkApiRateLimit, hcount, API_REQUESTS_PER_MINUTE, API_WINDOW_SECONDS]
  · simp [checkApiRateLimit, hcount, API_REQUESTS_PER_MINUTE, API_WINDOW_SECONDS]

/-- Witness for C3: 60 requests at second 7 fill window 0; a 61st at second 30
is rejected with 30 seconds to wait. -/
theorem claim_C3_api_rate_limit_61st_witness :
    (runApiRequests "u1:9.9.9.9" emptyApiStore (List.replicate 60 7)).1 =
        List.replicate 60 true ∧
    (checkApiRateLimit (runApiRequests "u1:9.9.9.9" emptyApiStore (List.replicate 60 7)).2
        "u1:9.9.9.9" 30).allowed = false ∧
    (checkApiRateLimit (runApiRequests "u1:9.9.9.9" emptyApiStore (List.replicate 60 7)).2
        "u1:9.9.9.9" 30).retryAfterSeconds = some (60 - 30 % 60) ∧
    0 < 60 - 30 % 60 ∧ 60 - 30 % 60 ≤ 60 :=
  claim_C3_api_rate_limit_61st "u1:9.9.9.9" (List.replicate 60 7) 30
    (by decide) (by decide)

/-- C7 counterexample: on a record whose lock has expired, `checkLoginAttempt`
is not a pure read: it deletes the stored attempt record. -/
theorem claim_C7_counterexample :
    (checkLoginAttempt lockedExpiredStore "a@b.c" 2000).2 (loginKey "a@b.c") = none ∧
    lockedExpiredStore (loginKey "a@b.c") = some ⟨5, some 1000⟩ ∧
    (checkLoginAttempt lockedExpiredStore "a@b.c" 2000).2 (loginKey "a@b.c") ≠
      lockedExpiredStore (loginKey "a@b.c") := by
  refine ⟨?_, ?_, ?_⟩ <;> decide

/-- C7 amended: `checkLoginAttempt` leaves the attempt store unchanged in the
no-record, unlocked and still-locked cases; in the one case of a (nonzero)
lock expiry that has passed it deletes exactly the caller's attempt record,
leaving every other key unchanged. -/
theorem claim_C7_amended_lazy_expiry_deletes (store : String → Option LoginRecord)
    (email : String) (now : Nat) :
    ((checkLoginAttempt store email now).2 =
      match store (loginKey email) with
      | some r =>
        if numTruthy r.lockedUntil = true ∧ r.lockedUntil.getD 0 ≤ now
        then upd store (loginKey email) none
        else store
      | none => store) ∧
    (∀ k, k ≠ loginKey email → (checkLoginAttempt store email now).2 k = store k) := by
  have hmain : (checkLoginAttempt store email now).2 =
      match store (loginKey email) with
      | some r =>
        if numTruthy r.lockedUntil = true ∧ r.lockedUntil.getD 0 ≤ now
        then upd store (loginKey email) none
        else store
      | none => store := by
    unfold checkLoginAttempt
    cases h : store (loginKey email) with
    | none => simp [h]
    | some r =>
      by_cases h1 : numTruthy r.lockedUntil = true ∧ now < r.lockedUntil.getD 0
      · have hnle : ¬ r.lockedUntil.getD 0 ≤ now := not_le.mpr h1.2
        simp [h, h1, hnle]
      · by_cases h2 : numTruthy r.lockedUntil = true ∧ r.lockedUntil.getD 0 ≤ now
        · have hnlt : ¬ now < r.lockedUntil.getD 0 := not_lt.mpr h2.2
          simp [h, h1, h2, hnlt]
        · simp [h, h1, h2]
  refine ⟨hmain, fun k hk => ?_⟩
  rw [hmain]
  cases h : store (loginKey email) with
  | none => rfl
  | some r =>
    by_cases h2 : numTruthy r.lockedUntil = true ∧ r.lockedUntil.getD 0 ≤ now
    · simp [h2, upd_other _ _ _ _ hk]
    · simp [h2]

/-- Witness for the C7 amended statement: an unrelated key is untouched. -/
theorem claim_C7_amended_lazy_expiry_deletes_witness :
    (checkLoginAttempt lockedExpiredStore "a@b.c" 2000).2 (loginKey "zz") =
      lockedExpiredStore (loginKey "zz") :=
  (claim_C7_amended_lazy_expiry_deletes lockedExpiredStore "a@b.c" 2000).2
    (loginKey "zz") (by decide)

/-! ## Frame lemmas for the storage layer -/

@[simp] theorem saveCipher_ciphers (st : St) (c : Cipher) :
    (saveCipher st c).ciphers = upd st.ciphers c.id (some c) := by
  unfold saveCipher; dsimp only; split <;> rfl

@[simp] theorem saveCipher_registered (st : St) (c : Cipher) :
    (saveCipher st c).registered = st.registered := by
  unfold saveCipher; dsimp only; split <;> rfl

@[simp] theorem saveCipher_revision (st : St) (c : Cipher) :
    (saveCipher st c).revision = st.revision := by
  unfold saveCipher; dsimp only; split <;> rfl

@[simp] theorem saveCipher_revTouches (st : St) (c : Cipher) :
    (saveCipher st c).revTouches = st.revTouches := by
  unfold saveCipher; dsimp only; split <;> rfl

@[simp] theorem saveFolder_registered (st : St) (f : Folder) :
    (saveFolder st f).registered = st.registered := by
  unfold saveFolder; dsimp only; split <;> rfl

@[simp] theorem deleteCipher_registered (st : St) (id userId : String) :
    (deleteCipher st id userId).registered = st.registered := rfl

@[simp] theorem deleteFolder_registered (st : St) (id userId : String) :
    (deleteFolder st id userId).registered = st.registered := rfl

@[simp] theorem saveUser_registered (st : St) (u : User) :
    (saveUser st u).registered = st.registered := rfl

@[simp] theorem setRegistered_registered (st : St) :
    (setRegistered st).registered = true := rfl

@[simp] theorem saveAttachment_registered (st : St) (a : Attachment) :
    (saveAttachment st a).registered = st.registered := rfl

@[simp] theorem deleteAttachment_registered (st : St) (id : String) :
    (deleteAttachment st id).registered = st.registered := rfl

@[simp] theorem addAttachmentToCipher_registered (st : St) (c a : String) :
    (addAttachmentToCipher st c a).registered = st.registered := by
  unfold addAttachmentToCipher; dsimp only; split <;> rfl

@[simp] theorem removeAttachmentFromCipher_registered (st : St) (c a : String) :
    (removeAttachmentFromCipher st c a).registered = st.registered := rfl

theorem foldl_deleteAttachment_registered :
    ∀ (l : List String) (st : St), (l.foldl deleteAttachment st).registered = st.registered := by
  intro l
  induction l with
  | nil => intro st; rfl
  | cons x xs ih => intro st; simpa using ih (deleteAttachment st x)

@[simp] theorem deleteAllAttachmentsByCipher_registered (st : St) (c : String) :
    (deleteAllAttachmentsByCipher st c).registered = st.registered := by
  unfold deleteAllAttachmentsByCipher
  simpa using foldl_deleteAttachment_registered (getAttachmentIdsByCipher st c) st

@[simp] theorem saveRefreshToken_registered (st : St) (t u : String) :
    (saveRefreshToken st t u).registered = st.registered := rfl

@[simp] theorem deleteRefreshToken_registered (st : St) (t : String) :
    (deleteRefreshToken st t).registered = st.registered := rfl

@[simp] theorem updateRevisionDate_registered (st : St) (u now : String) :
    (updateRevisionDate st u now).registered = st.registered := rfl

@[simp] theorem updateRevisionDate_ciphers (st : St) (u now : String) :
    (updateRevisionDate st u now).ciphers = st.ciphers := rfl

@[simp] theorem updateCipherRevisionDate_registered (st : St) (c now : String) :
    (updateCipherRevisionDate st c now).registered = st.registered := by
  unfold updateCipherRevisionDate; split <;> simp

theorem bulkMoveStep_registered (fid : Option String) (u now : String) (st : St) (e : String) :
    (bulkMoveStep fid u now st e).registered = st.registered := by
  unfold bulkMoveStep; split <;> (try split) <;> simp

theorem bulkFold_registered (fid : Option String) (u now : String) :
    ∀ (ids : List String) (st : St),
      (ids.foldl (bulkMoveStep fid u now) st).registered = st.registered := by
  intro ids
  induction ids with
  | nil => intro st; rfl
  | cons e rest ih =>
    intro st
    simpa [bulkMoveStep_registered] using ih (bulkMoveStep fid u now st e)

@[simp] theorem bulkMoveCiphers_registered (st : St) (ids : List String)
    (fid : Option String) (u now : String) :
    (bulkMoveCiphers st ids fid u now).registered = st.registered := by
  unfold bulkMoveCiphers
  simpa using bulkFold_registered fid u now ids st

theorem bulkMoveStep_revision_revTouches (fid : Option String) (u now : String)
    (st : St) (e : String) :
    (bulkMoveStep fid u now st e).revision = st.revision ∧
    (bulkMoveStep fid u now st e).revTouches = st.revTouches := by
  unfold bulkMoveStep; split <;> (try split) <;> simp

theorem bulkFold_revision_revTouches (fid : Option String) (u now : String) :
    ∀ (ids : List String) (st : St),
      (ids.foldl (bulkMoveStep fid u now) st).revision = st.revision ∧
      (ids.foldl (bulkMoveStep fid u now) st).revTouches = st.revTouches := by
  intro ids
  induction ids with
  | nil => intro st; exact ⟨rfl, rfl⟩
  | cons e rest ih =>
    intro st
    have h1 := bulkMoveStep_revision_revTouches fid u now st e
    have h2 := ih (bulkMoveStep fid u now st e)
    exact ⟨by rw [List.foldl_cons, h2.1, h1.1], by rw [List.foldl_cons, h2.2, h1.2]⟩

/-! ## Coherence lemmas -/

theorem saveCipher_coherent {st : St} (h : ciphersCoherent st) (c : Cipher) :
    ciphersCoherent (saveCipher st c) := by
  intro i x hx
  rw [saveCipher_ciphers] at hx
  unfold upd at hx
  by_cases hi : i = c.id
  · rw [if_pos hi] at hx
    cases hx
    exact hi.symm
  · rw [if_neg hi] at hx
    exact h i x hx

theorem bulkMoveStep_coherent {st : St} (fid : Option String) (u now : String)
    (h : ciphersCoherent st) (e : String) :
    ciphersCoherent (bulkMoveStep fid u now st e) := by
  unfold bulkMoveStep
  split
  · split
    · exact saveCipher_coherent h _
    · exact h
  · exact h

/-- The value of every cipher key after one `bulkMoveCiphers` iteration. -/
theorem bulkMoveStep_ciphers {st : St} (fid : Option String) (u now : String)
    (h : ciphersCoherent st) (e key : String) :
    (bulkMoveStep fid u now st e).ciphers key =
      if key = e then movedValue fid u now (getCipher st e)
      else getCipher st key := by
  unfold bulkMoveStep
  cases hc : getCipher st e with
  | none =>
    by_cases hk : key = e
    · subst hk
      simp only [hc, movedValue]
      exact hc
    · simp only [hc, movedValue, if_neg hk]
      rfl
  | some c =>
    have hcid : c.id = e := h e c hc
    dsimp only
    by_cases howner : c.userId = u
    · rw [if_pos howner, saveCipher_ciphers]
      unfold upd
      dsimp only
      rw [hcid]
      by_cases hk : key = e
      · simp [hk, movedValue, hc, howner, hcid]
      · simp only [if_neg hk, movedValue]
        rfl
    · rw [if_neg howner]
      by_cases hk : key = e
      · subst hk
        simp only [if_pos rfl, movedValue, hc, if_neg howner]
        exact hc
      · simp only [if_neg hk]
        rfl

/-- `movedValue` is idempotent and never resurrects ownership changes. -/
theorem movedValue_idem (fid : Option String) (u now : String) (v : Option Cipher) :
    movedValue fid u now (movedValue fid u now v) = movedValue fid u now v := by
  unfold movedValue
  cases v with
  | none => rfl
  | some c =>
    by_cases howner : c.userId = u
    · simp [howner]
    · simp [howner]

/-- The value of every cipher key after the whole `bulkMoveCiphers` loop. -/
theorem bulkFold_ciphers (fid : Option String) (u now : String) :
    ∀ (ids : List String) (st : St), ciphersCoherent st → ∀ key,
      (ids.foldl (bulkMoveStep fid u now) st).ciphers key =
        if key ∈ ids then movedValue fid u now (getCipher st key)
        else getCipher st key := by
  intro ids
  induction ids with
  | nil => intro st _ key; simp; rfl
  | cons e rest ih =>
    intro st h key
    rw [List.foldl_cons]
    have hstep := bulkMoveStep_ciphers fid u now h e key
    have hstepv : getCipher (bulkMoveStep fid u now st e) key =
        if key = e then movedValue fid u now (getCipher st e)
        else getCipher st key := hstep
    have hcoh1 := bulkMoveStep_coherent fid u now h e
    have hrec := ih (bulkMoveStep fid u now st e) hcoh1 key
    rw [hrec, hstepv]
    by_cases hk : key = e
    · subst hk
      by_cases hr : key ∈ rest
      · rw [if_pos hr, if_pos (List.mem_cons_self _ _), if_pos rfl, movedValue_idem]
      · rw [if_neg hr, if_pos (List.mem_cons_self _ _), if_pos rfl]
    · by_cases hr : key ∈ rest
      · rw [if_pos hr, if_pos (List.mem_cons.mpr (Or.inr hr)), if_neg hk]
      · rw [if_neg hr, if_neg hk, if_neg (by simp [List.mem_cons, hk, hr])]

/-- `sampleSt` stores each cipher under its own id. -/
theorem sampleSt_ciphersCoherent : ciphersCoherent sampleSt := by
  intro id c h
  simp only [sampleSt, upd] at h
  split at h
  · rename_i heq
    injection h with h2
    rw [← h2, heq]
    rfl
  · exact absurd h (by simp)

/-- `sampleSt` stores each folder under its own id. -/
theorem sampleSt_foldersCoherent : foldersCoherent sampleSt := by
  intro id f h
  simp only [sampleSt, upd] at h
  split at h
  · rename_i heq
    injection h with h2
    rw [← h2, heq]
    rfl
  · exact absurd h (by simp)

/-- Membership in `ids.filterMap get` under store coherence. -/
theorem mem_filterMap_iff_of_coherent {β : Type} (get : String → Option β)
    (idOf : β → String) (hcoh : ∀ i b, get i = some b → idOf b = i)
    (ids : List String) (b : β) :
    b ∈ ids.filterMap get ↔ (idOf b ∈ ids ∧ get (idOf b) = some b) := by
  constructor
  · intro h
    rcases List.mem_filterMap.mp h with ⟨i, hi, hg⟩
    have hid := hcoh i b hg
    rw [hid]
    exact ⟨hi, hg⟩
  · intro h
    exact List.mem_filterMap.mpr ⟨idOf b, h.1, h.2⟩

/-- C4: for each kind, `getAll` returns exactly the records whose id sits in
the user's index and whose record fetch succeeds — never a record whose id is
absent from the index, never omitting one whose id is indexed and whose
record exists (ids with a missing record are silently dropped; `getAll` is a
read and performs no write). -/
theorem claim_C4_getAll_exact (st : St) (u : String)
    (hc : ciphersCoherent st) (hf : foldersCoherent st) :
    (∀ c : Cipher, c ∈ getAllCiphers st u ↔
      (c.id ∈ getCipherIds st u ∧ getCipher st c.id = some c)) ∧
    (∀ f : Folder, f ∈ getAllFolders st u ↔
      (f.id ∈ getFolderIds st u ∧ getFolder st f.id = some f)) := by
  constructor
  · intro c
    exact mem_filterMap_iff_of_coherent (getCipher st) Cipher.id hc (getCipherIds st u) c
  · intro f
    exact mem_filterMap_iff_of_coherent (getFolder st) Folder.id hf (getFolderIds st u) f

/-- Witness for C4 on `sampleSt`: the index lists `c1` and the dangling
`gone`; `getAll` returns exactly the `c1` record. -/
theorem claim_C4_getAll_exact_witness :
    (cip1 ∈ getAllCiphers sampleSt "u1" ↔
      (cip1.id ∈ getCipherIds sampleSt "u1" ∧ getCipher sampleSt cip1.id = some cip1)) ∧
    getAllCiphers sampleSt "u1" = [cip1] :=
  ⟨(claim_C4_getAll_exact sampleSt "u1" sampleSt_ciphersCoherent
      sampleSt_foldersCoherent).1 cip1, by decide⟩

/-- C5: `bulkMoveCiphers` rewrites `folderId` and `updatedAt` of exactly the
listed ciphers that exist and are owned by the user, leaves every other
cipher record untouched, and performs exactly one revision-stamp update for
that user (ghost counter +1, stamp set to `now`) — also when zero listed ids
were owned. -/
theorem claim_C5_bulkMove_exact (st : St) (ids : List String) (fid : Option String)
    (u now : String) (hcoh : ciphersCoherent st) :
    (∀ id c, id ∈ ids → getCipher st id = some c → c.userId = u →
      (bulkMoveCiphers st ids fid u now).ciphers id =
        some { c with folderId := fid, updatedAt := now }) ∧
    (∀ id, id ∉ ids → (bulkMoveCiphers st ids fid u now).ciphers id = getCipher st id) ∧
    (∀ id c, getCipher st id = some c → c.userId ≠ u →
      (bulkMoveCiphers st ids fid u now).ciphers id = getCipher st id) ∧
    (bulkMoveCiphers st ids fid u now).revision u = some now ∧
    (bulkMoveCiphers st ids fid u now).revTouches u = st.revTouches u + 1 ∧
    (∀ v, v ≠ u →
      (bulkMoveCiphers st ids fid u now).revision v = st.revision v ∧
      (bulkMoveCiphers st ids fid u now).revTouches v = st.revTouches v) := by
  have hfold := bulkFold_ciphers fid u now ids st hcoh
  have hfr := bulkFold_revision_revTouches fid u now ids st
  refine ⟨?_, ?_, ?_, ?_, ?_, ?_⟩
  · intro id c hin hc hu
    simp only [bulkMoveCiphers, updateRevisionDate_ciphers]
    rw [hfold id, if_pos hin]
    simp [movedValue, hc, hu]
  · intro id hout
    simp only [bulkMoveCiphers, updateRevisionDate_ciphers]
    rw [hfold id, if_neg hout]
  · intro id c hc hne
    simp only [bulkMoveCiphers, updateRevisionDate_ciphers]
    rw [hfold id]
    by_cases hin : id ∈ ids
    · rw [if_pos hin]
      simp [movedValue, hc, hne]
    · rw [if_neg hin]
  · simp [bulkMoveCiphers, updateRevisionDate, upd]
  · simp only [bulkMoveCiphers, updateRevisionDate]
    simpa using hfr.2 ▸ rfl
  · intro v hv
    constructor
    · simp only [bulkMoveCiphers, updateRevisionDate]
      rw [show ((upd (ids.foldl (bulkMoveStep fid u now) st).revision u (some now)) v =
          (ids.foldl (bulkMoveStep fid u now) st).revision v) from upd_other _ _ _ _ hv,
        hfr.1]
    · simp only [bulkMoveCiphers, updateRevisionDate]
      simp only [if_neg hv]
      rw [congrFun hfr.2 v]

/-- Witness for C5 on `sampleSt`: moving `["c1", "nope"]` rewrites `c1`, and a
bulk move of an empty list still touches the revision stamp exactly once. -/
theorem claim_C5_bulkMove_exact_witness :
    (bulkMoveCiphers sampleSt ["c1", "nope"] (some "f2") "u1"
        "2024-03-03T00:00:00.000Z").ciphers "c1" =
      some { cip1 with folderId := some "f2", updatedAt := "2024-03-03T00:00:00.000Z" } ∧
    (bulkMoveCiphers sampleSt [] (some "f2") "u1"
        "2024-03-03T00:00:00.000Z").revTouches "u1" = sampleSt.revTouches "u1" + 1 := by
  have h1 := claim_C5_bulkMove_exact sampleSt ["c1", "nope"] (some "f2") "u1"
    "2024-03-03T00:00:00.000Z" sampleSt_ciphersCoherent
  have h2 := claim_C5_bulkMove_exact sampleSt [] (some "f2") "u1"
    "2024-03-03T00:00:00.000Z" sampleSt_ciphersCoherent
  exact ⟨h1.1 "c1" cip1 (by decide) (by decide) (by decide), h2.2.2.2.2.1⟩

/-- C10: deleting an owned folder returns 204 and modifies no cipher record
and no cipher index, so ciphers keep a now-dangling `folderId` and
`getAllCiphers` returns them unchanged. -/
theorem claim_C10_folder_delete_no_cipher_change (st : St) (u fid : String)
    (folder : Folder) (h1 : getFolder st fid = some folder) (h2 : folder.userId = u) :
    (handleDeleteFolder st u fid).1 = HOut.noContent 204 ∧
    (handleDeleteFolder st u fid).2.ciphers = st.ciphers ∧
    (handleDeleteFolder st u fid).2.cipherIndex = st.cipherIndex ∧
    (∀ v, getAllCiphers (handleDeleteFolder st u fid).2 v = getAllCiphers st v) := by
  have hne : ¬ folder.userId ≠ u := by simp [h2]
  unfold handleDeleteFolder
  simp only [h1]
  rw [if_neg hne]
  exact ⟨rfl, rfl, rfl, fun v => rfl⟩

/-- Witness for C10 on `sampleSt`: after deleting folder `f1`, cipher `c1`
still carries the dangling `folderId = f1` and is still returned. -/
theorem claim_C10_folder_delete_no_cipher_change_witness :
    (handleDeleteFolder sampleSt "u1" "f1").1 = HOut.noContent 204 ∧
    (handleDeleteFolder sampleSt "u1" "f1").2.ciphers = sampleSt.ciphers ∧
    getAllCiphers (handleDeleteFolder sampleSt "u1" "f1").2 "u1" =
      getAllCiphers sampleSt "u1" ∧
    cip1.folderId = some "f1" ∧
    cip1 ∈ getAllCiphers (handleDeleteFolder sampleSt "u1" "f1").2 "u1" := by
  have h := claim_C10_folder_delete_no_cipher_change sampleSt "u1" "f1" fold0
    (by decide) (by decide)
  exact ⟨h.1, h.2.1, h.2.2.2 "u1", by decide, by decide⟩

/-- C1 fails on the code: the three folder handlers perform no revision-stamp
update.  On `sampleSt` (stored stamp `2024-01-01...`), a successful folder
create, rename and delete at a later time each leave the stamp and the ghost
update counter untouched, while the claim (and the spec's invariant) say each
of them sets the stamp forward. -/
theorem claim_C1_folder_mutations_skip_revision :
    ((handleCreateFolder sampleSt "u1" (some ⟨some "Work"⟩) "f9"
        "2024-01-02T00:00:00.000Z").1.status = 200 ∧
      (handleCreateFolder sampleSt "u1" (some ⟨some "Work"⟩) "f9"
        "2024-01-02T00:00:00.000Z").2.folders "f9" =
        some ⟨"f9", "u1", "Work", "2024-01-02T00:00:00.000Z", "2024-01-02T00:00:00.000Z"⟩ ∧
      (handleCreateFolder sampleSt "u1" (some ⟨some "Work"⟩) "f9"
        "2024-01-02T00:00:00.000Z").2.revision "u1" = some "2024-01-01T00:00:00.000Z" ∧
      (handleCreateFolder sampleSt "u1" (some ⟨some "Work"⟩) "f9"
        "2024-01-02T00:00:00.000Z").2.revTouches "u1" = 0) ∧
    ((handleUpdateFolder sampleSt "u1" "f1" (some ⟨some "Renamed"⟩)
        "2024-01-02T00:00:00.000Z").1.status = 200 ∧
      (handleUpdateFolder sampleSt "u1" "f1" (some ⟨some "Renamed"⟩)
        "2024-01-02T00:00:00.000Z").2.revision "u1" = some "2024-01-01T00:00:00.000Z" ∧
      (handleUpdateFolder sampleSt "u1" "f1" (some ⟨some "Renamed"⟩)
        "2024-01-02T00:00:00.000Z").2.revTouches "u1" = 0) ∧
    ((handleDeleteFolder sampleSt "u1" "f1").1.status = 204 ∧
      (handleDeleteFolder sampleSt "u1" "f1").2.revision "u1" =
        some "2024-01-01T00:00:00.000Z" ∧
      (handleDeleteFolder sampleSt "u1" "f1").2.revTouches "u1" = 0) := by
  refine ⟨⟨?_, ?_, ?_, ?_⟩, ⟨?_, ?_, ?_⟩, ⟨?_, ?_, ?_⟩⟩ <;> decide

/-- C6 counterexample: a profile update with `{name: "New"}` succeeds and
returns the new name, but the stored revision stamp is left exactly where it
was (and differs from the request time), so it is not set forward. -/
theorem claim_C6_counterexample :
    (handleUpdateProfile sampleSt "u1" (some ⟨some "New", none⟩)
        "2024-02-02T00:00:00.000Z").1 =
      HOut.ok (profileOf { user6 with name := "New", updatedAt := "2024-02-02T00:00:00.000Z" }) ∧
    (profileOf { user6 with name := "New", updatedAt := "2024-02-02T00:00:00.000Z" }).name
      = "New" ∧
    (handleUpdateProfile sampleSt "u1" (some ⟨some "New", none⟩)
        "2024-02-02T00:00:00.000Z").2.revision "u1" = sampleSt.revision "u1" ∧
    sampleSt.revision "u1" = some "2024-01-01T00:00:00.000Z" ∧
    (handleUpdateProfile sampleSt "u1" (some ⟨some "New", none⟩)
        "2024-02-02T00:00:00.000Z").2.revTouches "u1" = 0 := by
  refine ⟨?_, ?_, ?_, ?_, ?_⟩ <;> decide

/-- C6 amended: PUT profile with `{name: "New"}` for an existing user returns
a profile whose name is `New` and rewrites the stored user record, but
performs no revision-stamp update: the revision state is unchanged. -/
theorem claim_C6_amended_profile_update (st : St) (uid : String) (user : User)
    (body : ProfileBody) (now : String)
    (hu : getUserById st uid = some user)
    (hid : user.id = uid)
    (hemail : jsToLower user.email = user.email)
    (hname : body.name = some "New") :
    (handleUpdateProfile st uid (some body) now).1 =
      HOut.ok (profileOf { user with name := "New", updatedAt := now }) ∧
    (profileOf { user with name := "New", updatedAt := now }).name = "New" ∧
    (handleUpdateProfile st uid (some body) now).2.revision = st.revision ∧
    (handleUpdateProfile st uid (some body) now).2.revTouches = st.revTouches ∧
    (handleUpdateProfile st uid (some body) now).2.users user.email =
      some { user with name := "New", updatedAt := now } := by
  have hbt : (if strTruthy body.name then { user with name := body.name.getD "" } else user) =
      { user with name := "New" } := by
    rw [hname]; rfl
  unfold handleUpdateProfile
  simp only [hu]
  rw [hbt]
  refine ⟨?_, rfl, rfl, rfl, ?_⟩
  · unfold handleGetProfile getUserById saveUser getUser
    dsimp only
    rw [hid, upd_same, hemail]
    dsimp only
    rw [hemail, upd_same]
  · unfold saveUser
    dsimp only
    rw [hemail, upd_same]

/-- Witness for the C6 amended statement on `sampleSt`. -/
theorem claim_C6_amended_profile_update_witness :
    (handleUpdateProfile sampleSt "u1" (some ⟨some "New", none⟩)
        "2024-02-02T12:00:00.000Z").1 =
      HOut.ok (profileOf { user6 with name := "New", updatedAt := "2024-02-02T12:00:00.000Z" }) ∧
    (handleUpdateProfile sampleSt "u1" (some ⟨some "New", none⟩)
        "2024-02-02T12:00:00.000Z").2.revision = sampleSt.revision := by
  have h := claim_C6_amended_profile_update sampleSt "u1" user6 ⟨some "New", none⟩
    "2024-02-02T12:00:00.000Z" (by decide) (by decide) (by decide) rfl
  exact ⟨h.1, h.2.2.1⟩

/-- C8: with `JWT_SECRET` absent or empty every request is answered with the
plain 500 configuration error, the state is untouched and the outcome does
not depend on the router at all; with a nonempty secret shorter than 32
characters the request is routed normally (the short secret only warns). -/
theorem claim_C8_jwt_secret_gate (secret : Option String) (st : St) :
    (secret.getD "" = "" →
      ∀ (α : Type) (route route2 : St → α × St),
        (workerFetch secret route st).2 = st ∧
        (workerFetch secret route st).1 =
          FetchOut.configError 500 "Server configuration error: JWT_SECRET is not set" ∧
        workerFetch secret route st = workerFetch secret route2 st) ∧
    (∀ s, secret = some s → s ≠ "" → s.length < 32 →
      ∀ (α : Type) (route : St → α × St),
        workerFetch secret route st = (FetchOut.routed (route st).1, (route st).2)) := by
  constructor
  · intro h α route route2
    unfold workerFetch
    rw [if_pos h]
    exact ⟨rfl, rfl, by rw [if_pos h]⟩
  · intro s hs hne _ α route
    unfold workerFetch
    rw [hs]
    rw [if_neg (by simpa using hne)]

/-- Witness for C8: no secret gives the 500 without routing; the short secret
`"short"` routes normally. -/
theorem claim_C8_jwt_secret_gate_witness :
    (workerFetch none (fun s => ((0 : Nat), s)) sampleSt).2 = sampleSt ∧
    (workerFetch none (fun s => ((0 : Nat), s)) sampleSt).1 =
      FetchOut.configError 500 "Server configuration error: JWT_SECRET is not set" ∧
    workerFetch (some "short") (fun s => ((37 : Nat), s)) sampleSt =
      (FetchOut.routed 37, sampleSt) := by
  have h1 := (claim_C8_jwt_secret_gate none sampleSt).1 rfl Nat
    (fun s => ((0 : Nat), s)) (fun s => ((0 : Nat), s))
  have h2 := (claim_C8_jwt_secret_gate (some "short") sampleSt).2 "short" rfl
    (by decide) (by decide) Nat (fun s => ((37 : Nat), s))
  exact ⟨h1.1, h1.2.1, h2⟩

/-! ## Registered-flag frame lemmas for the handlers -/

theorem handleCreateFolder_registered (st : St) (u : String) (b : Option FolderBody)
    (f now : String) : ((handleCreateFolder st u b f now).2).registered = st.registered := by
  unfold handleCreateFolder
  repeat' split
  all_goals simp

theorem handleUpdateFolder_registered (st : St) (u fid : String) (b : Option FolderBody)
    (now : String) : ((handleUpdateFolder st u fid b now).2).registered = st.registered := by
  unfold handleUpdateFolder
  repeat' split
  all_goals simp

theorem handleDeleteFolder_registered (st : St) (u fid : String) :
    ((handleDeleteFolder st u fid).2).registered = st.registered := by
  unfold handleDeleteFolder
  repeat' split
  all_goals simp

theorem handleCreateCipher_registered (st : St) (u : String) (b : Option CipherBody)
    (f now : String) : ((handleCreateCipher st u b f now).2).registered = st.registered := by
  unfold handleCreateCipher
  repeat' split
  all_goals simp

theorem handleUpdateCipher_registered (st : St) (u c : String) (b : Option CipherUpdateBody)
    (now : String) : ((handleUpdateCipher st u c b now).2).registered = st.registered := by
  unfold handleUpdateCipher
  repeat' split
  all_goals simp

theorem handleDeleteCipher_registered (st : St) (u c now : String) :
    ((handleDeleteCipher st u c now).2).registered = st.registered := by
  unfold handleDeleteCipher
  repeat' split
  all_goals simp

theorem handlePermanentDeleteCipher_registered (st : St) (u c now : String) :
    ((handlePermanentDeleteCipher st u c now).2).registered = st.registered := by
  unfold handlePermanentDeleteCipher deleteAllAttachmentsForCipher
  repeat' split
  all_goals simp

theorem handleRestoreCipher_registered (st : St) (u c now : String) :
    ((handleRestoreCipher st u c now).2).registered = st.registered := by
  unfold handleRestoreCipher
  repeat' split
  all_goals simp

theorem handlePartialUpdateCipher_registered (st : St) (u c : String)
    (b : Option CipherPartialBody) (now : String) :
    ((handlePartialUpdateCipher st u c b now).2).registered = st.registered := by
  unfold handlePartialUpdateCipher
  repeat' split
  all_goals simp

theorem handleBulkMoveCiphers_registered (st : St) (u : String) (b : Option BulkMoveBody)
    (now : String) : ((handleBulkMoveCiphers st u b now).2).registered = st.registered := by
  unfold handleBulkMoveCiphers
  repeat' split
  all_goals simp

theorem handleUpdateProfile_registered (st : St) (u : String) (b : Option ProfileBody)
    (now : String) : ((handleUpdateProfile st u b now).2).registered = st.registered := by
  unfold handleUpdateProfile
  repeat' split
  all_goals simp

theorem handleSetKeys_registered (st : St) (u : String) (b : Option KeysBody)
    (now : String) : ((handleSetKeys st u b now).2).registered = st.registered := by
  unfold handleSetKeys
  repeat' split
  all_goals simp

/-- C9: once the registered flag is set, every later `handleRegister` call
answers 403 and returns the state unchanged, and no storage operation or
handler of the system ever clears the flag. -/
theorem claim_C9_registration_one_shot (st : St) (h : st.registered = true) :
    (∀ (body : Option RegisterBody) (freshId freshStamp now : String),
      handleRegister st body freshId freshStamp now =
        (HOut.err "Registration is closed" 403, st)) ∧
    (∀ op : Op, (stepOp op st).registered = true) := by
  constructor
  · intro body f1 f2 now
    unfold handleRegister
    rw [if_pos (by simp [h])]
  · intro op
    cases op <;>
      simp [stepOp, h, handleRegister, handleCreateFolder_registered,
        handleUpdateFolder_registered, handleDeleteFolder_registered,
        handleCreateCipher_registered, handleUpdateCipher_registered,
        handleDeleteCipher_registered, handlePermanentDeleteCipher_registered,
        handleRestoreCipher_registered, handlePartialUpdateCipher_registered,
        handleBulkMoveCiphers_registered, handleUpdateProfile_registered,
        handleSetKeys_registered]

/-- Witness for C9 on the registered `sampleSt`. -/
theorem claim_C9_registration_one_shot_witness :
    handleRegister sampleSt none "x" "y" "2024-05-05T00:00:00.000Z" =
      (HOut.err "Registration is closed" 403, sampleSt) ∧
    (stepOp (Op.opHandleDeleteFolder "u1" "f1") sampleSt).registered = true := by
  have h := claim_C9_registration_one_shot sampleSt rfl
  exact ⟨h.1 none "x" "y" "2024-05-05T00:00:00.000Z",
    h.2 (Op.opHandleDeleteFolder "u1" "f1")⟩

end NodeWarden
